import Mathlib

/-!
Verification development for the master coordinator in
`nci_stitcher_master.py` (nci-ndr-analysis).  The Python source is embedded
shallowly: each class method or function body is translated into a pure Lean
function over explicit state, and the properties claimed by the natural
language specification are settled against those definitions.
-/

namespace NciStitcher

/-- State of the `WorkerStateSet` class (nci_stitcher_master.py, lines 81-161):
the `ready_host_set` and `running_host_set` Python sets and the
`host_ready_event` threading event (modelled by whether the event is set). -/
structure WorkerStateSet where
  readyHostSet : Finset String
  runningHostSet : Finset String
  hostReadyEvent : Bool
deriving DecidableEq

/-- The freshly constructed `WorkerStateSet()`: both sets empty, event clear. -/
def initWorkerStateSet : WorkerStateSet :=
  { readyHostSet := ∅, runningHostSet := ∅, hostReadyEvent := false }

/-- `WorkerStateSet.add_host` (lines 88-97): add a host as ready unless it is
already tracked in either set; sets the ready event when it adds.  Returns the
new state and the method's boolean result. -/
def add_host (s : WorkerStateSet) (host : String) : WorkerStateSet × Bool :=
  if host ∈ s.readyHostSet ∨ host ∈ s.runningHostSet then (s, false)
  else
    ({ readyHostSet := insert host s.readyHostSet,
       runningHostSet := s.runningHostSet,
       hostReadyEvent := true }, true)

/-- `WorkerStateSet.remove_host` (lines 118-126): remove a host from the ready
set if there, else from the running set if there; returns whether found. -/
def remove_host (s : WorkerStateSet) (host : String) : WorkerStateSet × Bool :=
  if host ∈ s.readyHostSet then
    ({ s with readyHostSet := s.readyHostSet.erase host }, true)
  else if host ∈ s.runningHostSet then
    ({ s with runningHostSet := s.runningHostSet.erase host }, true)
  else (s, false)

/-- `WorkerStateSet.set_ready_host` (lines 128-134): move a running host back
to ready (adds directly to ready when it was not running) and set the event. -/
def set_ready_host (s : WorkerStateSet) (host : String) : WorkerStateSet :=
  { readyHostSet := insert host s.readyHostSet,
    runningHostSet := s.runningHostSet.erase host,
    hostReadyEvent := true }

/-- `WorkerStateSet.update_host_set` (lines 136-161): compute the hosts of
`active` not yet tracked, drop tracked hosts missing from `active` from both
sets, add the new hosts to ready, set the event only when the resulting ready
set is non-empty (the event is never cleared here), and return the removed
("dead") hosts together with the new state. -/
def update_host_set (s : WorkerStateSet) (active : Finset String) :
    WorkerStateSet × Finset String :=
  let newHosts := (active \ s.readyHostSet) \ s.runningHostSet
  let deadReady := s.readyHostSet \ active
  let deadRunning := s.runningHostSet \ active
  let ready1 := (s.readyHostSet \ deadReady) ∪ newHosts
  let running1 := s.runningHostSet \ deadRunning
  ({ readyHostSet := ready1,
     runningHostSet := running1,
     hostReadyEvent := if ready1.Nonempty then true else s.hostReadyEvent },
   deadReady ∪ deadRunning)

/-- Outcome of one call to `WorkerStateSet.get_ready_host` (lines 99-112) in a
sequential execution: the call blocks on `host_ready_event.wait()` when the
event is clear; otherwise it pops an arbitrary member of the ready set, moves
it to running (clearing the event when ready became empty) and returns it; if
the event is set while the ready set is empty, `next(iter(...))` raises
`StopIteration`. -/
inductive AcquireOutcome where
  | blocked
  | stopIteration
  | acquired (host : String) (s : WorkerStateSet)
deriving DecidableEq

/-- `WorkerStateSet.get_ready_host` (lines 99-112); the arbitrary element
`next(iter(ready_host_set))` is modelled by the minimum of the set. -/
def get_ready_host (s : WorkerStateSet) : AcquireOutcome :=
  if s.hostReadyEvent = false then .blocked
  else if h : s.readyHostSet.Nonempty then
    let host := s.readyHostSet.min' h
    .acquired host
      { readyHostSet := s.readyHostSet.erase host,
        runningHostSet := insert host s.runningHostSet,
        hostReadyEvent := if s.readyHostSet.erase host = ∅ then false else true }
  else .stopIteration

/-- One registry mutation, in the vocabulary of the specification:
`add`/`remove`/`reconcile`/`release` name `add_host`, `remove_host`,
`update_host_set` and `set_ready_host` respectively. -/
inductive RegistryOp where
  | add (host : String)
  | remove (host : String)
  | reconcile (active : Finset String)
  | release (host : String)

/-- Apply one registry operation to the state (results other than the state
are discarded). -/
def applyRegistryOp (s : WorkerStateSet) : RegistryOp → WorkerStateSet
  | .add host => (add_host s host).1
  | .remove host => (remove_host s host).1
  | .reconcile active => (update_host_set s active).1
  | .release host => set_ready_host s host

/-- Run a sequence of registry operations from a starting state. -/
def runRegistryOps (s : WorkerStateSet) (ops : List RegistryOp) : WorkerStateSet :=
  ops.foldl applyRegistryOp s

/-- The job payload built by `schedule_worker` (lines 322-327) from one
backlog row: a dict with keys scenario_id, raster_id, ul_grid_lng,
ul_grid_lat. -/
structure JobPayload where
  scenario_id : String
  raster_id : String
  ul_grid_lng : Int
  ul_grid_lat : Int
deriving DecidableEq

/-- A Python value as stored in the coordinator's dicts and queues. -/
inductive PyVal where
  | str (s : String)
  | num (n : Int)
  | payload (p : JobPayload)
deriving DecidableEq

/-- One value of `SCHEDULED_MAP`: the dict literal recorded by `send_job` on a
successful dispatch (lines 403-408), with exactly the keys `status_url`,
`job_payload`, `last_time_accessed` and `host`. -/
structure Session where
  status_url : String
  job_payload : JobPayload
  last_time_accessed : Int
  host : String
deriving DecidableEq

/-- Python `session_dict[key]` on a session recorded by `send_job`: `some` for
the four keys the dict holds, `none` (a `KeyError`) for every other key. -/
def Session.getItem (s : Session) (key : String) : Option PyVal :=
  if key = "status_url" then some (.str s.status_url)
  else if key = "job_payload" then some (.payload s.job_payload)
  else if key = "last_time_accessed" then some (.num s.last_time_accessed)
  else if key = "host" then some (.str s.host)
  else none

/-- Lookup in `SCHEDULED_MAP`, modelled as an association list keyed by
session id. -/
def lookupSession (m : List (String × Session)) (session_id : String) :
    Option Session :=
  (m.find? (fun kv => kv.1 == session_id)).map (fun kv => kv.2)

/-- `del SCHEDULED_MAP[session_id]`. -/
def eraseSession (m : List (String × Session)) (session_id : String) :
    List (String × Session) :=
  m.filter (fun kv => !(kv.1 == session_id))

/-- A POST body received by `processing_complete`: the `session_id` field plus
the rest of the payload (opaque here). -/
structure CompletionPayload where
  session_id : String
  rest : PyVal
deriving DecidableEq

/-- The coordinator's shared mutable state: the worker registry
(`GLOBAL_WORKER_STATE_SET`), the session table (`SCHEDULED_MAP`), the result
queue (`RESULT_QUEUE`) and the reschedule queue (`RESCHEDULE_QUEUE`). -/
structure MasterState where
  workerStateSet : WorkerStateSet
  scheduledMap : List (String × Session)
  resultQueue : List CompletionPayload
  rescheduleQueue : List PyVal
deriving DecidableEq

/-- The for-loop over `session_list_to_remove` in `new_host_monitor`
(lines 212-216): for each session id, evaluate
`SCHEDULED_MAP[session_id]['watershed_fid_tuple_list']`, put it on
`RESCHEDULE_QUEUE`, then delete the session.  A missing key raises `KeyError`,
which stops the loop with the effects made so far; the returned boolean
records whether the loop raised. -/
def rescheduleLoop : List String → List (String × Session) → List PyVal →
    List (String × Session) × List PyVal × Bool
  | [], m, q => (m, q, false)
  | session_id :: rest, m, q =>
    match lookupSession m session_id with
    | none => (m, q, true)
    | some sess =>
      match sess.getItem ("watershed_fid_tuple_list") with
      | none => (m, q, true)
      | some v => rescheduleLoop rest (eraseSession m session_id) (q ++ [v])

/-- One iteration of the polling loop body of `new_host_monitor`
(lines 201-217), with its catch-all `except` (lines 218-219) swallowing any
exception the dead-host sweep raises: reconcile the registry against the
discovered host set; if any host died, collect the sessions bound to dead
hosts and run the reschedule loop over them. -/
def newHostMonitorCycle (st : MasterState) (workingHostSet : Finset String) :
    MasterState :=
  let res := update_host_set st.workerStateSet workingHostSet
  if res.2 = ∅ then { st with workerStateSet := res.1 }
  else
    let sessionListToRemove :=
      (st.scheduledMap.filter (fun kv => kv.2.host ∈ res.2)).map (fun kv => kv.1)
    let swept := rescheduleLoop sessionListToRemove st.scheduledMap st.rescheduleQueue
    { st with
      workerStateSet := res.1
      scheduledMap := swept.1
      rescheduleQueue := swept.2.1 }

/-- An observable action of the fleet-discovery function. -/
inductive MonitorEvent where
  | reconcile (active : Finset String) (dead : Finset String)
  | reschedule (v : PyVal)
deriving DecidableEq

/-- The static-worker-list branch of `new_host_monitor` (lines 178-180): when
`worker_list` is truthy the function calls `update_host_set` once with the
listed hosts, discards its result, and returns (the polling loop and its
dead-host sweep are never entered). -/
def new_host_monitor_static (workerList : List String) (ws : WorkerStateSet) :
    WorkerStateSet × List MonitorEvent :=
  let res := update_host_set ws workerList.toFinset
  (res.1, [.reconcile workerList.toFinset res.2])

/-- `processing_complete` (lines 336-358): look up the session id from the
POST body in `SCHEDULED_MAP`.  On a hit: read the bound host, delete the
session, put the whole payload on `RESULT_QUEUE`, mark the host ready again,
and return HTTP 202 with body `complete`.  On a miss the `KeyError` is caught
by the handler's catch-all `except`, which only logs: no state is touched and
no response value is produced. -/
def processing_complete (st : MasterState) (p : CompletionPayload) :
    Option (String × Nat) × MasterState :=
  match lookupSession st.scheduledMap p.session_id with
  | none => (none, st)
  | some sess =>
    (some ("complete", 202),
     { st with
       workerStateSet := set_ready_host st.workerStateSet sess.host
       scheduledMap := eraseSession st.scheduledMap p.session_id
       resultQueue := st.resultQueue ++ [p] })

/-- Names bound at module level of nci_stitcher_master.py: the imported module
names, the module constants and classes (lines 9-78, 164, 227-240), the
function definitions, and the names the `__main__` block assigns (lines
422-461).  Python name resolution in `send_job` falls back to these after the
function's locals. -/
def moduleGlobalNames : List String :=
  ["argparse", "datetime", "json", "logging", "os", "pathlib", "queue", "re",
   "sqlite3", "subprocess", "sys", "threading", "time", "uuid", "zipfile",
   "gdal", "osr", "flask", "ecoshard", "numpy", "pygeoprocessing", "requests",
   "retrying", "shapely", "taskgraph", "WATERSHEDS_URL", "WORKSPACE_DIR",
   "ECOSHARD_DIR", "CHURN_DIR", "STATUS_DATABASE_PATH", "DATABASE_TOKEN_PATH",
   "GRID_STEP_SIZE", "LOGGER", "DETECTOR_POLL_TIME", "SCHEDULED_MAP",
   "GLOBAL_LOCK", "RESULT_QUEUE", "RESCHEDULE_QUEUE", "WGS84_SR", "WGS84_WKT",
   "WORKER_TAG_ID", "BUCKET_URI_PREFIX", "GLOBAL_STITCH_WGS84_CELL_SIZE",
   "APP", "WorkerStateSet", "GLOBAL_WORKER_STATE_SET", "new_host_monitor",
   "processing_status", "GLOBAL_STATUS", "SCENARIO_ID_LIST",
   "GLOBAL_STITCH_MAP", "create_status_database", "schedule_worker",
   "processing_complete", "send_job", "parser", "args", "dir_path",
   "task_graph", "new_host_monitor_thread", "scheduling_thread", "START_TIME",
   "__name__"]

/-- Local names of `send_job` that can be bound by the time its `except` block
runs after a failed dispatch attempt (parameter and the assignments on lines
376-400). -/
def sendJobLocalNames : List String :=
  ["job_payload", "callback_url", "worker_ip_port", "session_id",
   "data_payload", "worker_rest_url", "response", "e"]

/-- Whether a name resolves inside `send_job`'s except block. -/
def nameInScope (n : String) : Bool :=
  sendJobLocalNames.contains n || moduleGlobalNames.contains n

/-- Result of running `send_job`'s except block (lines 411-417): either a
`NameError` raised while evaluating the arguments of one of its logging
calls, or the re-raise of the original exception after `remove_host` ran. -/
inductive ExceptBlockResult where
  | nameError (n : String)
  | reRaised (ws : WorkerStateSet)
deriving DecidableEq

/-- `send_job`'s except block (lines 411-417), entered after a dispatch
attempt failed with a bound `worker_ip_port`: it logs `e`, then logs
`worker_ip_port` and `job_tuple` (line 414) — each name evaluated before
`remove_host` is reached and raising `NameError` if unbound — then removes
the worker from the registry and re-raises. -/
def sendJobExceptBlock (ws : WorkerStateSet) (worker_ip_port : String) :
    ExceptBlockResult :=
  if !(nameInScope ("worker_ip_port")) then .nameError ("worker_ip_port")
  else if !(nameInScope ("job_tuple")) then .nameError ("job_tuple")
  else .reRaised (remove_host ws worker_ip_port).1

/-- Parameters of a `retrying.retry` decorator: exponential-backoff multiplier
and cap in milliseconds, and the optional attempt cap (absent means retry
forever). -/
structure RetryPolicy where
  wait_exponential_multiplier : Nat
  wait_exponential_max : Nat
  stop_max_attempt_number : Option Nat
deriving DecidableEq

/-- The decorator on `send_job` (line 361):
`@retrying.retry(wait_exponential_multiplier=1000, wait_exponential_max=5000)`. -/
def sendJobRetryPolicy : RetryPolicy :=
  { wait_exponential_multiplier := 1000
    wait_exponential_max := 5000
    stop_max_attempt_number := none }

/-- The decorator on `schedule_worker` (line 297):
`@retrying.retry(wait_exponential_multiplier=1000, wait_exponential_max=10000)`. -/
def scheduleWorkerRetryPolicy : RetryPolicy :=
  { wait_exponential_multiplier := 1000
    wait_exponential_max := 10000
    stop_max_attempt_number := none }

/-- Backoff wait before a retry: the exponentially grown multiplier, capped at
`wait_exponential_max`. -/
def RetryPolicy.waitMs (p : RetryPolicy) (attempt : Nat) : Nat :=
  min (p.wait_exponential_multiplier * 2 ^ attempt) p.wait_exponential_max

/-- `GRID_STEP_SIZE` (line 51). -/
def gridStepSize : Int := 2

/-- Python `range(start, stop, step)` as a list of integers. -/
def pyRange (start stop step : Int) : List Int :=
  if step = 0 then []
  else
    let len : Nat :=
      if 0 < step then ((stop - start + step - 1) / step).toNat
      else ((start - stop + (-step) - 1) / (-step)).toNat
    (List.range len).map (fun (i : Nat) => start + step * (i : Int))

/-- The latitude loop of `create_status_database` (line 279):
`reversed(range(90, -90, -GRID_STEP_SIZE))`. -/
def latMinList : List Int := (pyRange 90 (-90) (-gridStepSize)).reverse

/-- The longitude loop of `create_status_database` (line 281):
`range(-180, 180, GRID_STEP_SIZE)`. -/
def lngMaxList : List Int := pyRange (-180) 180 gridStepSize

/-- The grid cells generated per (scenario, raster) pair by the two nested
loops of `create_status_database` (lines 279-285), as tuples
`(lng_min, lat_min, lng_max, lat_max)` with `lat_max = lat_min +
GRID_STEP_SIZE` (line 280) and `lng_min = lng_max - GRID_STEP_SIZE`
(line 282). -/
def gridCellList : List (Int × Int × Int × Int) :=
  latMinList.flatMap (fun lat_min =>
    lngMaxList.map (fun lng_max =>
      (lng_max - gridStepSize, lat_min, lng_max, lat_min + gridStepSize)))

/-- `SCENARIO_ID_LIST` (lines 228-230). -/
def scenarioIdList : List String :=
  ["baseline_potter", "baseline_napp_rate", "ag_expansion",
   "ag_intensification", "restoration_potter", "restoration_napp_rate"]

/-- The keys of `GLOBAL_STITCH_MAP` (lines 232-240), iterated by
`for raster_id in GLOBAL_STITCH_MAP` in source order. -/
def globalStitchMapKeys : List String := ["n_export", "modified_load"]

/-- `scenario_output_lat_lng_list` as built by the four nested loops of
`create_status_database` (lines 275-285). -/
def scenarioOutputLatLngList : List (String × String × Int × Int × Int × Int) :=
  scenarioIdList.flatMap (fun scenario_id =>
    globalStitchMapKeys.flatMap (fun raster_id =>
      latMinList.flatMap (fun lat_min =>
        lngMaxList.map (fun lng_max =>
          (scenario_id, raster_id, lng_max - gridStepSize, lat_min, lng_max,
           lat_min + gridStepSize)))))

/-- One row of the `job_status` table (schema on lines 256-266). -/
structure JobStatusRow where
  scenario_id : String
  raster_id : String
  lng_min : Int
  lat_min : Int
  lng_max : Int
  lat_max : Int
  stiched : Int
deriving DecidableEq

/-- The rows bulk-inserted by `create_status_database` (lines 286-290): one
row per tuple of `scenario_output_lat_lng_list`, with the `stiched` column
written as the literal `0` of the INSERT statement. -/
def jobStatusRows : List JobStatusRow :=
  scenarioOutputLatLngList.map (fun t =>
    { scenario_id := t.1, raster_id := t.2.1, lng_min := t.2.2.1,
      lat_min := t.2.2.2.1, lng_max := t.2.2.2.2.1, lat_max := t.2.2.2.2.2,
      stiched := 0 })

/-- The status database file: just its `job_status` table. -/
structure StatusDatabase where
  jobStatus : List JobStatusRow
deriving DecidableEq

/-- `create_status_database` (lines 243-294) acting on the database file
(`none` when no file exists): any pre-existing file is removed (line 267-268)
before the fresh table is created and bulk-filled, so the result ignores the
prior contents. -/
def create_status_database (prior : Option StatusDatabase) : StatusDatabase :=
  match prior with
  | _ => { jobStatus := jobStatusRows }

/-- The columns of the `job_status` table (lines 256-266). -/
def jobStatusColumns : List String :=
  ["scenario_id", "raster_id", "lng_min", "lat_min", "lng_max", "lat_max",
   "stiched"]

/-- The columns named in `schedule_worker`'s SELECT (lines 313-316). -/
def scheduleWorkerSelectColumns : List String :=
  ["scenario_id", "raster_id", "ul_grid_lng", "ul_grid_lat"]

/-- The access-mode query parameter of the sqlite URI `schedule_worker` opens
(line 308): `?mode=ro`. -/
def scheduleWorkerUriMode : String := "ro"

/-- Read one named column of a `job_status` row; `none` when the schema has no
such column. -/
def JobStatusRow.getColumn (r : JobStatusRow) (c : String) : Option PyVal :=
  if c = "scenario_id" then some (.str r.scenario_id)
  else if c = "raster_id" then some (.str r.raster_id)
  else if c = "lng_min" then some (.num r.lng_min)
  else if c = "lat_min" then some (.num r.lat_min)
  else if c = "lng_max" then some (.num r.lng_max)
  else if c = "lat_max" then some (.num r.lat_max)
  else if c = "stiched" then some (.num r.stiched)
  else none

/-- Execute a `SELECT <cols> FROM job_status WHERE <whereCol>=0` against the
table: sqlite raises an operational error naming the first column that is not
in the schema; otherwise it projects the selected columns of every row whose
`whereCol` value is 0 (the read is a pure function of the table: `mode=ro`
mutates nothing). -/
def runSelect (selectCols : List String) (whereCol : String)
    (schema : List String) (rows : List JobStatusRow) :
    Except String (List (List PyVal)) :=
  match (selectCols ++ [whereCol]).find? (fun c => !(schema.contains c)) with
  | some c => .error ("no such column: " ++ c)
  | none =>
    .ok ((rows.filter (fun r => r.stiched == 0)).map
      (fun r => selectCols.filterMap (fun c => r.getColumn c)))

/-- The backlog read issued by `schedule_worker` (lines 313-316):
`SELECT scenario_id, raster_id, ul_grid_lng, ul_grid_lat FROM job_status
WHERE stiched=0`. -/
def scheduleWorkerQuery (db : StatusDatabase) : Except String (List (List PyVal)) :=
  runSelect scheduleWorkerSelectColumns ("stiched") jobStatusColumns db.jobStatus

/-- A concrete open session, as `send_job` records it on a successful
dispatch: worker `10.0.0.9:8888` is executing one grid-cell job. -/
def sweepSession : Session :=
  { status_url := "http://10.0.0.9:8888/status"
    job_payload :=
      { scenario_id := "baseline_potter", raster_id := "n_export",
        ul_grid_lng := -182, ul_grid_lat := -88 }
    last_time_accessed := 0
    host := "10.0.0.9:8888" }

/-- A concrete coordinator state: `10.0.0.9:8888` is running and bound to the
open session `S`; both queues are empty. -/
def sweepState : MasterState :=
  { workerStateSet :=
      { readyHostSet := ∅, runningHostSet := {"10.0.0.9:8888"},
        hostReadyEvent := false }
    scheduledMap := [("S", sweepSession)]
    resultQueue := []
    rescheduleQueue := [] }

/-- A concrete open session bound to worker `10.0.0.7:8888`, for exercising
the completion handler. -/
def doneSession : Session :=
  { status_url := "http://10.0.0.7:8888/status"
    job_payload :=
      { scenario_id := "ag_expansion", raster_id := "modified_load",
        ul_grid_lng := 0, ul_grid_lat := 0 }
    last_time_accessed := 0
    host := "10.0.0.7:8888" }

/-- A concrete coordinator state holding open session `T` on a running
worker. -/
def doneState : MasterState :=
  { workerStateSet :=
      { readyHostSet := ∅, runningHostSet := {"10.0.0.7:8888"},
        hostReadyEvent := false }
    scheduledMap := [("T", doneSession)]
    resultQueue := []
    rescheduleQueue := [] }

/-- A completion callback body referencing session `T`. -/
def doneCallbackBody : CompletionPayload :=
  { session_id := "T", rest := .str "https://bucket/result.zip" }

/-- A completion callback body referencing a session id that is not in the
session table. -/
def unknownCallbackBody : CompletionPayload :=
  { session_id := "gone", rest := .str "https://bucket/other.zip" }

end NciStitcher

namespace NciStitcher

/-- Every single registry operation preserves disjointness of the ready and
running sets. -/
theorem disjoint_applyRegistryOp (s : WorkerStateSet) (op : RegistryOp)
    (h : Disjoint s.readyHostSet s.runningHostSet) :
    Disjoint (applyRegistryOp s op).readyHostSet
      (applyRegistryOp s op).runningHostSet := by
  cases op with
  | add host =>
    simp only [applyRegistryOp, add_host]
    split
    · exact h
    · rename_i hni
      push_neg at hni
      rw [Finset.disjoint_left] at h ⊢
      intro a ha
      rcases Finset.mem_insert.mp ha with rfl | ha'
      · exact hni.2
      · exact h ha'
  | remove host =>
    simp only [applyRegistryOp, remove_host]
    split
    · exact h.mono_left (Finset.erase_subset _ _)
    · split
      · exact h.mono_right (Finset.erase_subset _ _)
      · exact h
  | reconcile active =>
    simp only [applyRegistryOp, update_host_set]
    rw [Finset.disjoint_left] at h ⊢
    intro a ha ha'
    simp only [Finset.mem_union, Finset.mem_sdiff] at ha ha'
    rcases ha with ⟨hr, _⟩ | ⟨⟨_, _⟩, hnr⟩
    · exact h hr ha'.1
    · exact hnr ha'.1
  | release host =>
    simp only [applyRegistryOp, set_ready_host]
    rw [Finset.disjoint_left] at h ⊢
    intro a ha ha'
    rcases Finset.mem_insert.mp ha with rfl | ha2
    · exact (Finset.mem_erase.mp ha').1 rfl
    · exact h ha2 (Finset.mem_erase.mp ha').2

/-- Disjointness of ready and running is preserved along any operation
sequence. -/
theorem disjoint_runRegistryOps (ops : List RegistryOp) (s : WorkerStateSet)
    (h : Disjoint s.readyHostSet s.runningHostSet) :
    Disjoint (runRegistryOps s ops).readyHostSet
      (runRegistryOps s ops).runningHostSet := by
  induction ops generalizing s with
  | nil => exact h
  | cons op rest ih =>
    exact ih (applyRegistryOp s op) (disjoint_applyRegistryOp s op h)

/-- C4: for every sequence of add/remove/reconcile/release operations starting
from the empty registry, no host is ever simultaneously in both the ready set
and the running set. -/
theorem registry_ready_running_disjoint (ops : List RegistryOp) :
    Disjoint (runRegistryOps initWorkerStateSet ops).readyHostSet
      (runRegistryOps initWorkerStateSet ops).runningHostSet :=
  disjoint_runRegistryOps ops initWorkerStateSet (by simp [initWorkerStateSet])

/-- C3: after `update_host_set active` the tracked hosts are a subset of
`active`, the returned dead set is the pre-call tracked set minus `active`,
and every untracked member of `active` lands in the ready set. -/
theorem update_host_set_spec (s : WorkerStateSet) (active : Finset String) :
    (update_host_set s active).1.readyHostSet ∪
        (update_host_set s active).1.runningHostSet ⊆ active ∧
    (update_host_set s active).2 =
        (s.readyHostSet ∪ s.runningHostSet) \ active ∧
    (active \ s.readyHostSet) \ s.runningHostSet ⊆
        (update_host_set s active).1.readyHostSet := by
  refine ⟨?_, ?_, ?_⟩
  · intro a ha
    simp only [update_host_set, Finset.mem_union, Finset.mem_sdiff] at ha
    tauto
  · ext a
    simp only [update_host_set, Finset.mem_union, Finset.mem_sdiff]
    tauto
  · intro a ha
    simp only [Finset.mem_sdiff] at ha
    simp only [update_host_set, Finset.mem_union, Finset.mem_sdiff]
    tauto

end NciStitcher

namespace NciStitcher

/-- C2: `update_host_set` never clears `host_ready_event`, so after
`add_host "w1:8888"` followed by `update_host_set ∅` the ready set is empty
while the event is still set; `get_ready_host` then does not block and its
pop of the empty ready set fails (`StopIteration`) instead of returning a
host — against the code's own comment that the call blocks until the ready
set is non-empty. -/
theorem get_ready_host_stale_event_failure :
    (runRegistryOps initWorkerStateSet
        [.add ("w1:8888"), .reconcile ∅]).readyHostSet = ∅ ∧
    (runRegistryOps initWorkerStateSet
        [.add ("w1:8888"), .reconcile ∅]).hostReadyEvent = true ∧
    get_ready_host (runRegistryOps initWorkerStateSet
        [.add ("w1:8888"), .reconcile ∅]) = .stopIteration := by
  decide

/-- C1: declaring `10.0.0.9:8888` dead while it holds open session `S` —
`update_host_set ∅` does report it dead, but the sweep then evaluates
`SCHEDULED_MAP['S']['watershed_fid_tuple_list']`, a key `send_job` never
stores, so the lookup raises `KeyError` (swallowed by the loop's catch-all):
the reschedule queue receives nothing and session `S` survives in the
session table. -/
theorem dead_host_sweep_reschedules_nothing :
    (update_host_set sweepState.workerStateSet ∅).2 = {"10.0.0.9:8888"} ∧
    sweepSession.getItem ("watershed_fid_tuple_list") = none ∧
    (rescheduleLoop ["S"] sweepState.scheduledMap []).2.2 = true ∧
    newHostMonitorCycle sweepState ∅ =
      { workerStateSet :=
          { readyHostSet := ∅, runningHostSet := ∅, hostReadyEvent := false }
        scheduledMap := [("S", sweepSession)]
        resultQueue := []
        rescheduleQueue := [] } := by
  decide

/-- C5 counterexample: on a failed dispatch the acquired worker
`10.0.0.3:8888` is not removed from the registry (the except block raises
`NameError` before reaching `remove_host`), and the backoff cap of
`send_job`'s retry decorator is not 10000 ms. -/
theorem send_job_failure_claim_false :
    sendJobExceptBlock
        { readyHostSet := ∅, runningHostSet := {"10.0.0.3:8888"},
          hostReadyEvent := false } ("10.0.0.3:8888") ≠
      .reRaised ((remove_host
        { readyHostSet := ∅, runningHostSet := {"10.0.0.3:8888"},
          hostReadyEvent := false } ("10.0.0.3:8888")).1) ∧
    sendJobRetryPolicy.wait_exponential_max ≠ 10000 := by
  decide

/-- C5 amended: whenever a dispatch attempt fails with a worker acquired, the
except block evaluates the unbound name `job_tuple` for its log call and dies
with `NameError` before `remove_host` runs, leaving the registry untouched;
the dispatch is retried without attempt cap under exponential backoff with
multiplier 1000 ms capped at 5000 ms. -/
theorem send_job_failure_behavior (ws : WorkerStateSet) (worker_ip_port : String) :
    sendJobExceptBlock ws worker_ip_port = .nameError ("job_tuple") ∧
    sendJobRetryPolicy.wait_exponential_multiplier = 1000 ∧
    sendJobRetryPolicy.wait_exponential_max = 5000 ∧
    sendJobRetryPolicy.stop_max_attempt_number = none ∧
    (∀ attempt, sendJobRetryPolicy.waitMs attempt ≤ 5000) := by
  have h1 : nameInScope ("worker_ip_port") = true := by decide
  have h2 : nameInScope ("job_tuple") = false := by decide
  refine ⟨?_, rfl, rfl, rfl, fun attempt => Nat.min_le_right _ _⟩
  simp [sendJobExceptBlock, h1, h2]

/-- C10: with a non-empty static worker list, `new_host_monitor` performs
exactly one reconciliation — which, from the fresh registry, makes every
listed host ready and nothing running — emits no reschedule entry, and
returns. -/
theorem new_host_monitor_static_spec (workerList : List String)
    (hne : workerList ≠ []) :
    (new_host_monitor_static workerList initWorkerStateSet).1.readyHostSet =
      workerList.toFinset ∧
    (new_host_monitor_static workerList initWorkerStateSet).1.runningHostSet = ∅ ∧
    (new_host_monitor_static workerList initWorkerStateSet).2 =
      [.reconcile workerList.toFinset ∅] ∧
    ((new_host_monitor_static workerList initWorkerStateSet).2.filter
        (fun e => match e with | .reschedule _ => true | _ => false)) = [] := by
  refine ⟨?_, ?_, ?_, ?_⟩ <;>
    simp [new_host_monitor_static, update_host_set, initWorkerStateSet]

/-- Witness for the static-list monitor: the concrete one-element worker list
`10.0.0.1:8888` is non-empty and ends up as the entire ready set. -/
theorem new_host_monitor_static_spec_witness :
    (new_host_monitor_static ["10.0.0.1:8888"] initWorkerStateSet).1.readyHostSet =
      (["10.0.0.1:8888"] : List String).toFinset :=
  (new_host_monitor_static_spec ["10.0.0.1:8888"] (by decide)).1

end NciStitcher

namespace NciStitcher

/-- `pyRange` with non-zero step, written as an explicit map over
`List.range`. -/
theorem pyRange_eq_map (start stop step : Int) (h : ¬ step = 0) :
    pyRange start stop step =
      (List.range (if 0 < step then ((stop - start + step - 1) / step).toNat
        else ((start - stop + -step - 1) / -step).toNat)).map
        (fun (i : Nat) => start + step * (i : Int)) := by
  rw [pyRange, if_neg h]

/-- `pyRange` never repeats a value when the step is non-zero. -/
theorem pyRange_nodup (start stop step : Int) (h : step ≠ 0) :
    (pyRange start stop step).Nodup := by
  rw [pyRange_eq_map start stop step h]
  have hinj : Function.Injective (fun (i : Nat) => start + step * (i : Int)) := by
    intro i j hij
    simp only at hij
    have h1 : step * (i : Int) = step * (j : Int) := by linarith
    exact Nat.cast_injective (mul_left_cancel₀ h h1)
  exact List.Nodup.map hinj (List.nodup_range _)

/-- The latitude loop values are pairwise distinct. -/
theorem latMinList_nodup : latMinList.Nodup :=
  List.nodup_reverse.mpr (pyRange_nodup 90 (-90) (-gridStepSize) (by decide))

/-- The longitude loop values are pairwise distinct. -/
theorem lngMaxList_nodup : lngMaxList.Nodup :=
  pyRange_nodup (-180) 180 gridStepSize (by decide)

/-- Membership in the generated per-pair cell list, characterised by the two
loop variables. -/
theorem mem_gridCellList (cell : Int × Int × Int × Int) :
    cell ∈ gridCellList ↔
      ∃ lat_min ∈ latMinList, ∃ lng_max ∈ lngMaxList,
        cell = (lng_max - gridStepSize, lat_min, lng_max,
                lat_min + gridStepSize) := by
  simp only [gridCellList, List.mem_flatMap, List.mem_map]
  constructor
  · rintro ⟨lat, hlat, lng, hlng, rfl⟩
    exact ⟨lat, hlat, lng, hlng, rfl⟩
  · rintro ⟨lat, hlat, lng, hlng, rfl⟩
    exact ⟨lat, hlat, lng, hlng, rfl⟩

set_option maxRecDepth 4000 in
/-- The latitude loop yields 90 values. -/
theorem latMinList_length : latMinList.length = 90 := by decide

set_option maxRecDepth 8000 in
/-- The longitude loop yields 180 values. -/
theorem lngMaxList_length : lngMaxList.length = 180 := by decide

/-- The per-pair cell list has 90 × 180 = 16200 entries. -/
theorem gridCellList_length : gridCellList.length = 16200 := by
  rw [gridCellList, List.length_flatMap]
  simp only [Function.comp_def, List.length_map, lngMaxList_length]
  rw [List.map_const', latMinList_length]
  simp [List.sum_replicate]

/-- The per-pair cell list never repeats a cell. -/
theorem gridCellList_nodup : gridCellList.Nodup := by
  rw [gridCellList, List.nodup_flatMap]
  constructor
  · intro lat _
    refine List.Nodup.map ?_ lngMaxList_nodup
    intro a b hab
    simpa using congrArg (fun q => q.2.2.1) hab
  · refine List.Pairwise.imp ?_ latMinList_nodup
    intro a b hab x hxa hxb
    obtain ⟨la, _, rfl⟩ := List.mem_map.mp hxa
    obtain ⟨lb, _, heq⟩ := List.mem_map.mp hxb
    exact hab (congrArg (fun q => q.2.1) heq).symm

set_option maxRecDepth 8000 in
/-- C6: with step 2 the generator does emit 16200 pairwise-distinct cells,
but they do not tile lat [-90,90) × lng [-180,180): the lat_min values run
over {-88,...,90} and the lng_min values over {-182,...,176}, so cells
reaching latitude 92 and longitude -182 exist while no cell covers the bands
lat ∈ [-90,-88) or lng ∈ [178,180). -/
theorem grid_cells_misaligned :
    gridCellList.length = 16200 ∧
    gridCellList.Nodup ∧
    (-182, -88, -180, -86) ∈ gridCellList ∧
    (176, 90, 178, 92) ∈ gridCellList ∧
    gridCellList.all (fun cell => decide (-88 ≤ cell.2.1)) = true ∧
    gridCellList.all (fun cell => decide (cell.1 ≤ 176)) = true := by
  refine ⟨gridCellList_length, gridCellList_nodup, ?_, ?_, ?_, ?_⟩
  · exact (mem_gridCellList _).mpr ⟨-88, by decide, -180, by decide, by decide⟩
  · exact (mem_gridCellList _).mpr ⟨90, by decide, 178, by decide, by decide⟩
  · rw [List.all_eq_true]
    intro cell hc
    obtain ⟨lat, hlat, lng, hlng, rfl⟩ := (mem_gridCellList _).mp hc
    have hall : ∀ l ∈ latMinList, (-88 : Int) ≤ l := by decide
    simpa using hall lat hlat
  · rw [List.all_eq_true]
    intro cell hc
    obtain ⟨lat, hlat, lng, hlng, rfl⟩ := (mem_gridCellList _).mp hc
    have hall : ∀ l ∈ lngMaxList, l ≤ (178 : Int) := by decide
    have h2 := hall lng hlng
    simp only [gridStepSize, decide_eq_true_eq]
    omega

/-- The bulk-inserted rows, reorganised as the cross product of the scenario
list, the raster-kind list and the per-pair cell list. -/
theorem jobStatusRows_eq_cross :
    jobStatusRows = scenarioIdList.flatMap (fun scenario_id =>
      globalStitchMapKeys.flatMap (fun raster_id =>
        gridCellList.map (fun cell =>
          { scenario_id := scenario_id, raster_id := raster_id,
            lng_min := cell.1, lat_min := cell.2.1, lng_max := cell.2.2.1,
            lat_max := cell.2.2.2, stiched := 0 }))) := by
  simp only [jobStatusRows, scenarioOutputLatLngList, gridCellList,
    List.map_flatMap, List.map_map]
  rfl

/-- The catalog holds 6 × 2 × 16200 = 194400 rows. -/
theorem jobStatusRows_length : jobStatusRows.length = 194400 := by
  rw [jobStatusRows_eq_cross]
  simp [List.length_flatMap, List.length_map, gridCellList_length,
    scenarioIdList, globalStitchMapKeys]

/-- Every inserted row carries the literal completion flag 0. -/
theorem jobStatusRows_stiched :
    jobStatusRows.map JobStatusRow.stiched = List.replicate 194400 0 := by
  have hmap : jobStatusRows.map JobStatusRow.stiched =
      scenarioOutputLatLngList.map (fun _ => (0 : Int)) := by
    rw [jobStatusRows, List.map_map]
    rfl
  have hlen : scenarioOutputLatLngList.length = 194400 := by
    have h := jobStatusRows_length
    rwa [jobStatusRows, List.length_map] at h
  rw [hmap, List.map_const', hlen]

/-- C9: catalog initialization discards any pre-existing database file and
bulk-inserts exactly the cross product of the 6 scenario ids, the 2 raster
kinds and the 16200 distinct grid cells — 194400 rows, each with completion
flag 0. -/
theorem create_status_database_spec (prior : Option StatusDatabase) :
    create_status_database prior = { jobStatus := jobStatusRows } ∧
    scenarioIdList.length = 6 ∧
    globalStitchMapKeys.length = 2 ∧
    gridCellList.length = 16200 ∧
    gridCellList.Nodup ∧
    jobStatusRows.length = 194400 ∧
    jobStatusRows.map JobStatusRow.stiched = List.replicate 194400 0 ∧
    jobStatusRows = scenarioIdList.flatMap (fun scenario_id =>
      globalStitchMapKeys.flatMap (fun raster_id =>
        gridCellList.map (fun cell =>
          { scenario_id := scenario_id, raster_id := raster_id,
            lng_min := cell.1, lat_min := cell.2.1, lng_max := cell.2.2.1,
            lat_max := cell.2.2.2, stiched := 0 }))) :=
  ⟨rfl, rfl, rfl, gridCellList_length, gridCellList_nodup, jobStatusRows_length,
   jobStatusRows_stiched, jobStatusRows_eq_cross⟩

/-- C7: the backlog read opens the catalog read-only (`mode=ro`), but its
SELECT names the columns `ul_grid_lng` and `ul_grid_lat`, which are not in
the `job_status` schema, so the read raises an operational error instead of
returning the `stiched=0` rows. -/
theorem schedule_worker_query_fails :
    scheduleWorkerUriMode = "ro" ∧
    "ul_grid_lng" ∉ jobStatusColumns ∧
    "ul_grid_lat" ∉ jobStatusColumns ∧
    scheduleWorkerQuery (create_status_database none) =
      .error ("no such column: ul_grid_lng") := by
  refine ⟨rfl, by decide, by decide, rfl⟩

end NciStitcher

namespace NciStitcher

/-- Looking up a session id right after deleting it finds nothing. -/
theorem lookupSession_eraseSession (m : List (String × Session))
    (session_id : String) :
    lookupSession (eraseSession m session_id) session_id = none := by
  induction m with
  | nil => rfl
  | cons kv rest ih =>
    cases h : kv.1 == session_id with
    | true =>
      simp only [eraseSession, List.filter_cons, h, Bool.not_true]
      exact ih
    | false =>
      simp only [eraseSession, lookupSession, List.filter_cons, h,
        Bool.not_false, if_true, List.find?_cons, Bool.false_eq_true]
      simp only [eraseSession, lookupSession] at ih
      exact ih

/-- C8: a completion callback whose session id is unknown leaves the whole
coordinator state untouched and produces no response; one whose session id is
present yields HTTP 202 `complete`, deletes the session, appends the payload
to the result queue, moves the bound worker to ready (and out of running),
and leaves the reschedule queue alone. -/
theorem processing_complete_spec (st : MasterState) (p : CompletionPayload) :
    (lookupSession st.scheduledMap p.session_id = none →
      processing_complete st p = (none, st)) ∧
    (∀ sess, lookupSession st.scheduledMap p.session_id = some sess →
      (processing_complete st p).1 = some ("complete", 202) ∧
      lookupSession (processing_complete st p).2.scheduledMap p.session_id =
        none ∧
      (processing_complete st p).2.resultQueue = st.resultQueue ++ [p] ∧
      sess.host ∈ (processing_complete st p).2.workerStateSet.readyHostSet ∧
      sess.host ∉ (processing_complete st p).2.workerStateSet.runningHostSet ∧
      (processing_complete st p).2.rescheduleQueue = st.rescheduleQueue) := by
  constructor
  · intro h
    simp [processing_complete, h]
  · intro sess h
    simp [processing_complete, h, set_ready_host, lookupSession_eraseSession]

/-- Witness: the completion handler evaluated at concrete states — a callback
for the unknown session id `gone` returns nothing and changes nothing, and a
callback for the open session `T` returns 202 and deletes the session. -/
theorem processing_complete_spec_witness :
    processing_complete doneState unknownCallbackBody = (none, doneState) ∧
    (processing_complete doneState doneCallbackBody).1 =
      some ("complete", 202) ∧
    lookupSession (processing_complete doneState doneCallbackBody).2.scheduledMap
      doneCallbackBody.session_id = none :=
  ⟨(processing_complete_spec doneState unknownCallbackBody).1 (by decide),
   ((processing_complete_spec doneState doneCallbackBody).2 doneSession
      (by decide)).1,
   ((processing_complete_spec doneState doneCallbackBody).2 doneSession
      (by decide)).2.1⟩

end NciStitcher
